import Mathlib

/-!
# Verification of the London travel / route calculator core

Shallow embedding of `route_calculator.py` (class `TravelCalculator`).
Python `dict` fields read with `.get` / `'key' in d` are modelled as
`Option` fields; JSON numbers are modelled as exact rationals `ℚ`;
network I/O is modelled by passing the possible HTTP outcome as an
explicit argument of a sum type, and each network-touching function
additionally returns a `Bool` recording whether the network request was
actually issued.  `requests.exceptions.RequestException` (timeout,
non-2xx via `raise_for_status`, malformed body via `response.json`) is
the `fail` branch of the HTTP-outcome type; the embedded functions are
total, which models "never raises past its own boundary".
-/

/-- ASCII whitespace, as stripped by Python's `str.strip()`. -/
def pyIsSpace (c : Char) : Bool :=
  c = ' ' || c = '\t' || c = '\n' || c = '\r' || c = '\x0b' || c = '\x0c'

/-- Python `str.strip()`: drop whitespace from both ends. -/
def pyStrip (s : String) : String :=
  ⟨((s.data.dropWhile pyIsSpace).reverse.dropWhile pyIsSpace).reverse⟩

/-- Python `str.lower()` (ASCII case folding). -/
def pyLower (s : String) : String :=
  ⟨s.data.map Char.toLower⟩

/-- Python truthiness of a string: non-empty strings are truthy. -/
def pyTruthyStr (s : String) : Bool := s ≠ ""

/-- Python `not x` for an optional string (`None` and `''` are falsy). -/
def pyFalsyOptStr (o : Option String) : Bool :=
  match o with
  | none => true
  | some s => !pyTruthyStr s

/-- Python truthiness of an optional string. -/
def pyTruthyOptStr (o : Option String) : Bool := !pyFalsyOptStr o

/-- Python `a or b` on optional strings (used for `tfl_app_key or os.getenv(...)`). -/
def pyOrOptStr (a b : Option String) : Option String :=
  match a with
  | some s => if pyTruthyStr s then some s else b
  | none => b

/-- Python `not x` for an optional number (`None` and `0` are falsy). -/
def pyFalsyQ (o : Option ℚ) : Bool :=
  match o with
  | none => true
  | some v => decide (v = 0)

/-- Python truthiness of an optional number: present and non-zero. -/
def pyTruthyQ (o : Option ℚ) : Bool := !pyFalsyQ o

/-- Python `x or 0` for an optional number. -/
def pyOrZero (o : Option ℚ) : ℚ :=
  match o with
  | none => 0
  | some v => if v = 0 then 0 else v

/-- `'k' in d and d['k'] > 0` for an optional numeric dict entry. -/
def keyPos (o : Option ℚ) : Bool :=
  match o with
  | none => false
  | some v => decide (0 < v)

/-- A stop point of a leg (`departurePoint` / `arrivalPoint`):
only the `commonName` field is consulted by the embedded code. -/
structure RawPoint where
  commonName : Option String
deriving Repr, DecidableEq

/-- One leg of a raw TfL journey (the fields the embedded code reads). -/
structure RawLeg where
  departurePoint : Option RawPoint
  arrivalPoint : Option RawPoint
deriving Repr, DecidableEq

/-- One element of the raw fare block's `fares` list. -/
structure RawFareElem where
  lowZone : Option ℚ
  highZone : Option ℚ
deriving Repr, DecidableEq

/-- The raw `fare` block of a TfL journey. -/
structure RawFareBlock where
  totalCost : Option ℚ
  fares : Option (List RawFareElem)
  caveatText : Option String
deriving Repr, DecidableEq

/-- A raw journey record from the TfL response (`data['journeys'][i]`). -/
structure RawJourney where
  duration : Option ℚ
  startDateTime : Option String
  arrivalDateTime : Option String
  legs : List RawLeg
  fare : Option RawFareBlock
deriving Repr, DecidableEq

/-- The `fare_info` dict built by `TravelCalculator._extract_fare`. -/
structure FareInfo where
  total_cost : Option ℚ
  peak_single : Option ℚ
  off_peak_single : Option ℚ
  zones : Option String
deriving Repr, DecidableEq

/-- The initial `fare_info` dict (all four fields `None`). -/
def emptyFareInfo : FareInfo := ⟨none, none, none, none⟩

/-- Embedding of `TravelCalculator._extract_fare` (route_calculator.py,
lines 136-176).  Step 1: positive `totalCost` is converted pence→pounds.
Step 2 (guarded by `not fare_info['total_cost']`): first `fares` element,
positive `lowZone` first, `elif` positive `highZone`.  Step 3: whenever
`highZone` / `lowZone` keys are present, unconditionally (re)assign
`peak_single` / `off_peak_single`.  Step 4: `caveatText` → `zones`. -/
def extractFare (j : RawJourney) : FareInfo :=
  match j.fare with
  | none => emptyFareInfo
  | some fd =>
    let fi1 :=
      match fd.totalCost with
      | some t => if 0 < t then { emptyFareInfo with total_cost := some (t / 100) } else emptyFareInfo
      | none => emptyFareInfo
    let fi2 :=
      if pyFalsyQ fi1.total_cost then
        match fd.fares with
        | some (ff :: _) =>
          let fiA :=
            if keyPos ff.lowZone then
              { fi1 with total_cost := some (ff.lowZone.getD 0 / 100),
                         off_peak_single := some (ff.lowZone.getD 0 / 100) }
            else if keyPos ff.highZone then
              { fi1 with total_cost := some (ff.highZone.getD 0 / 100),
                         peak_single := some (ff.highZone.getD 0 / 100) }
            else fi1
          let fiB :=
            match ff.highZone with
            | some hz => { fiA with peak_single := some (hz / 100) }
            | none => fiA
          match ff.lowZone with
          | some lz => { fiB with off_peak_single := some (lz / 100) }
          | none => fiB
        | _ => fi1
      else fi1
    match fd.caveatText with
    | some c => { fi2 with zones := some c }
    | none => fi2

example :
    extractFare ⟨none, none, none, [], some ⟨some 0, some [⟨some 180, some 220⟩], none⟩⟩ =
      ⟨some (180 / 100), some (220 / 100), some (180 / 100), none⟩ := by
  norm_num [extractFare, emptyFareInfo, keyPos, pyFalsyQ]

example :
    extractFare ⟨none, none, none, [], some ⟨some 250, some [⟨some 180, some 220⟩], none⟩⟩ =
      ⟨some (250 / 100), none, none, none⟩ := by
  norm_num [extractFare, emptyFareInfo, keyPos, pyFalsyQ]

/-- Possible outcome of the `requests.get` call against the TfL journey
endpoint: `fail` is any `requests.exceptions.RequestException` (timeout,
non-2xx status raised by `raise_for_status`, malformed body raised by
`response.json`) with its string rendering; `ok` is a parsed JSON body,
carrying `data.get('journeys', [])`. -/
inductive TflHttp where
  | fail (cause : String)
  | ok (journeys : List RawJourney)
deriving Repr, DecidableEq

/-- The result dict returned by `TravelCalculator.get_tfl_journey`:
one constructor per distinct dict shape produced by the code. -/
inductive TflResult where
  | ok (duration_minutes : ℚ) (arrival_time : Option String) (start_time : Option String)
      (legs : ℕ) (fare : FareInfo) (raw_data : RawJourney)
  | noJourney (raw_data : List RawJourney)
  | reqFailed (cause : String)
  | noKey
deriving Repr, DecidableEq

/-- `result.get('success')` of a `get_tfl_journey`-shaped dict. -/
def TflResult.success : TflResult → Bool
  | .ok .. => true
  | _ => false

/-- `result.get('error')` of a `get_tfl_journey`-shaped dict. -/
def TflResult.errorMsg : TflResult → Option String
  | .ok .. => none
  | .noJourney _ => some "No journey found"
  | .reqFailed cause => some ("API request failed: " ++ cause)
  | .noKey => some "TfL API key not found. Set TFL_APP_KEY in .env file"

/-- `result.get('duration_minutes')`. -/
def TflResult.durationMinutes : TflResult → Option ℚ
  | .ok d _ _ _ _ _ => some d
  | _ => none

/-- `result.get('fare', {})`: on non-success dicts the key is absent and
every lookup in the empty dict yields `None`. -/
def TflResult.fareInfo : TflResult → FareInfo
  | .ok _ _ _ _ f _ => f
  | _ => emptyFareInfo

/-- Build the success dict of `get_tfl_journey` /
`select_journey_option` from the first / selected raw journey
(route_calculator.py lines 110-118 and 474-482). -/
def normalizeJourney (j : RawJourney) : TflResult :=
  .ok (j.duration.getD 0) j.arrivalDateTime j.startDateTime j.legs.length (extractFare j) j

/-- Embedding of `TravelCalculator.get_tfl_journey` (lines 38-134),
with the request parameters that only feed the URL/query elided.  The
second component records whether the network request was issued.  The
missing-key guard (`if not self.tfl_app_key`) returns before any
network access. -/
def getTflJourney (key : Option String) (http : TflHttp) : TflResult × Bool :=
  if pyFalsyOptStr key then (.noKey, false)
  else
    match http with
    | .fail e => (.reqFailed e, true)
    | .ok js =>
      match js with
      | [] => (.noJourney js, true)
      | j :: _ => (normalizeJourney j, true)

/-- Mutable state of a `TravelCalculator` instance: the API key fixed at
construction and the `last_journey` cache. -/
structure CalcState where
  tfl_app_key : Option String
  last_journey : Option TflResult
deriving Repr, DecidableEq

/-- Embedding of `TravelCalculator.__init__`: `tfl_app_key or
os.getenv('TFL_APP_KEY')`, and `last_journey = None`. -/
def initCalc (tfl_app_key envKey : Option String) : CalcState :=
  ⟨pyOrOptStr tfl_app_key envKey, none⟩

/-- `get_tfl_journey` as a state transformer: the result is cached in
`self.last_journey` (line 133) on every path that reaches the
try/except, i.e. whenever the key guard passes. -/
def getTflJourneyStep (st : CalcState) (http : TflHttp) : TflResult × CalcState × Bool :=
  if pyFalsyOptStr st.tfl_app_key then (.noKey, st, false)
  else
    let r := (getTflJourney st.tfl_app_key http).1
    (r, { st with last_journey := some r }, true)

/-- `leg.get('departurePoint', {}).get('commonName', '')` (and its
arrival twin). -/
def pointName (p : Option RawPoint) : String :=
  ((p.getD ⟨none⟩).commonName).getD ""

/-- The `route_key` of `get_all_journey_options` (lines 236-240):
`(start.strip().lower(), end.strip().lower())` built from the first
leg's departure point and the last leg's arrival point. -/
def routeKeyOfLegs (firstLeg lastLeg : RawLeg) : String × String :=
  (pyLower (pyStrip (pointName firstLeg.departurePoint)),
   pyLower (pyStrip (pointName lastLeg.arrivalPoint)))

/-- The dedup key of a journey, `none` when the journey has no legs. -/
def journeyKey (j : RawJourney) : Option (String × String) :=
  match j.legs with
  | [] => none
  | f :: more => some (routeKeyOfLegs f (more.getLastD f))

/-- The filtering loop of `get_all_journey_options` (lines 227-245):
`seen_routes` is the set of keys already emitted. -/
def dedupAux : List RawJourney → List (String × String) → List RawJourney
  | [], _ => []
  | j :: rest, seen =>
    match journeyKey j with
    | none => dedupAux rest seen
    | some k =>
      if k ∈ seen then dedupAux rest seen
      else j :: dedupAux rest (k :: seen)

/-- The deduplication pass applied to the raw journey list. -/
def dedupJourneys (js : List RawJourney) : List RawJourney :=
  dedupAux js []

/-- Modelled from the spec's words (§4.3), for comparison with the
code's `dedupJourneys`: drop journeys with zero legs; keep the first
journey observed for each distinct (case-insensitive, trimmed) key and
drop later journeys with a repeated key; preserve relative order. -/
def specDedup : List RawJourney → List RawJourney
  | [] => []
  | j :: rest =>
    match journeyKey j with
    | none => specDedup rest
    | some k => j :: specDedup (rest.filter (fun j2 => journeyKey j2 ≠ some k))
termination_by l => l.length
decreasing_by
  · simp
  · simpa using Nat.lt_succ_of_le (List.length_filter_le _ _)

/-- Embedding of `TravelCalculator.get_all_journey_options` (lines
178-253).  Returns the (possibly `None`) journey list and whether the
network request was issued.  Missing key → `None` without any request;
transport failure → `None` (the exception text is only printed);
empty/all-filtered journey list → `None`. -/
def getAllJourneyOptions (key : Option String) (http : TflHttp) :
    Option (List RawJourney) × Bool :=
  if pyFalsyOptStr key then (none, false)
  else
    match http with
    | .fail _ => (none, true)
    | .ok js =>
      match js with
      | [] => (none, true)
      | _ =>
        let filtered := dedupJourneys js
        (if filtered.isEmpty then none else some filtered, true)

/-- The effective terminating user input of the interactive selection
loop in `select_journey_option` (lines 461-496): either `'q'` or an
accepted numeric choice.  Inputs the loop rejects and re-prompts on
(non-numeric text, out-of-range numbers) are not terminal and are not
modelled. -/
inductive UserChoice where
  | quit
  | pick (n : ℕ)
deriving Repr, DecidableEq

/-- Embedding of `TravelCalculator.select_journey_option` (lines
391-496): fetch the deduplicated options, return `None` when there are
none or the user quits; on an accepted in-range choice, build the
`get_tfl_journey`-shaped result and cache it (line 485). -/
def selectJourneyOption (st : CalcState) (http : TflHttp) (choice : UserChoice) :
    Option TflResult × CalcState × Bool :=
  let fetched := getAllJourneyOptions st.tfl_app_key http
  match fetched.1 with
  | none => (none, st, fetched.2)
  | some js =>
    match choice with
    | .quit => (none, st, fetched.2)
    | .pick n =>
      if h : 1 ≤ n ∧ n ≤ js.length then
        let r := normalizeJourney (js.get ⟨n - 1, by omega⟩)
        (some r, { st with last_journey := some r }, fetched.2)
      else (none, st, fetched.2)

/-- The journey-argument resolution at the top of
`print_journey_instructions` (lines 505-506): `if journey is None:
journey = self.last_journey`. -/
def printJourneyResolve (st : CalcState) (journeyArg : Option TflResult) : Option TflResult :=
  match journeyArg with
  | some j => some j
  | none => st.last_journey

/-- The identical journey-argument resolution at the top of
`visualize_journey` (lines 592-593). -/
def visualizeResolve (st : CalcState) (journeyArg : Option TflResult) : Option TflResult :=
  match journeyArg with
  | some j => some j
  | none => st.last_journey

/-- The success dict of `calculate_monthly_commute_cost`
(lines 817-831). -/
structure CostEstimate where
  single_fare : ℚ
  daily_cost : ℚ
  weekly_cost : ℚ
  monthly_cost : ℚ
  monthly_cost_with_cap : ℚ
  annual_cost : ℚ
  duration_minutes : Option ℚ
  journey_info : TflResult
  warning : Option String
deriving Repr, DecidableEq

/-- The three dict shapes `calculate_monthly_commute_cost` can return:
a success estimate, the failed journey dict returned verbatim
(line 789), or the no-journey-data error dict (lines 783-786). -/
inductive CostResult where
  | estimate (e : CostEstimate)
  | passthrough (j : TflResult)
  | errNoData
deriving Repr, DecidableEq

/-- `result.get('success')` of a cost result. -/
def CostResult.success : CostResult → Bool
  | .estimate _ => true
  | .passthrough j => j.success
  | .errNoData => false

/-- `result.get('single_fare')` of a cost result. -/
def CostResult.singleFare : CostResult → Option ℚ
  | .estimate e => some e.single_fare
  | _ => none

/-- `result.get('warning')` of a cost result. -/
def CostResult.warningMsg : CostResult → Option String
  | .estimate e => e.warning
  | _ => none

/-- The warning attached when no fare data is available (line 805). -/
def fareWarningMsg : String :=
  "⚠ Fare information not available from TfL API. Cost estimates will be £0."

/-- The journey-source resolution of `calculate_monthly_commute_cost`
(lines 777-786): explicit argument, else fetch when both locations are
given (which also overwrites the cache), else the cached journey, else
fail.  Returns the resolved journey (if any), the state after
resolution, and whether a network request was issued. -/
def resolveJourneyArg (st : CalcState) (fromLoc toLoc : Option String)
    (journeyArg : Option TflResult) (http : TflHttp) :
    Option TflResult × CalcState × Bool :=
  match journeyArg with
  | some j => (some j, st, false)
  | none =>
    if pyTruthyOptStr fromLoc && pyTruthyOptStr toLoc then
      let (r, st2, att) := getTflJourneyStep st http
      (some r, st2, att)
    else
      match st.last_journey with
      | some j => (some j, st, false)
      | none => (none, st, false)

/-- The single-fare resolution and formulas of
`calculate_monthly_commute_cost` (lines 791-831), applied to a resolved
successful journey. -/
def costFromJourney (j : TflResult) (daysPerWeek : ℤ) : CostEstimate :=
  let fare := j.fareInfo
  let sf0 : ℚ := pyOrZero fare.total_cost
  let sf : ℚ :=
    if sf0 = 0 then
      if pyTruthyQ fare.off_peak_single then fare.off_peak_single.getD 0
      else if pyTruthyQ fare.peak_single then fare.peak_single.getD 0
      else sf0
    else sf0
  let warning : Option String := if sf = 0 then some fareWarningMsg else none
  let daily := sf * 2
  let weekly := daily * (daysPerWeek : ℚ)
  let monthly := weekly * (433 / 100)
  let annual := monthly * 12
  let dailyCap := sf * (5 / 2)
  let monthlyCap := dailyCap * 20
  { single_fare := sf
    daily_cost := daily
    weekly_cost := weekly
    monthly_cost := monthly
    monthly_cost_with_cap := min monthly monthlyCap
    annual_cost := annual
    duration_minutes := j.durationMinutes
    journey_info := j
    warning := warning }

/-- Embedding of `TravelCalculator.calculate_monthly_commute_cost`
(lines 755-832).  The `use_travelcard` parameter is accepted and never
read by the code, so it is elided. -/
def calcMonthlyCommuteCost (st : CalcState) (fromLoc toLoc : Option String)
    (daysPerWeek : ℤ) (journeyArg : Option TflResult) (http : TflHttp) :
    CostResult × CalcState × Bool :=
  let (j?, st2, att) := resolveJourneyArg st fromLoc toLoc journeyArg http
  match j? with
  | none => (.errNoData, st2, att)
  | some j =>
    if j.success then (.estimate (costFromJourney j daysPerWeek), st2, att)
    else (.passthrough j, st2, att)

/-- One route of the OSRM response's `routes` list: `distance` in
meters, `duration` in seconds. -/
structure OsrmRoute where
  distance : ℚ
  duration : ℚ
deriving Repr, DecidableEq

/-- Outcome of the `requests.get` call against the OSRM endpoint. -/
inductive OsrmHttp where
  | fail (cause : String)
  | ok (code : Option String) (routes : List OsrmRoute)
deriving Repr, DecidableEq

/-- The success dict of `get_osrm_route` (lines 865-872). -/
structure OsrmSuccess where
  distance_km : ℚ
  distance_miles : ℚ
  duration_minutes : ℚ
  duration_hours : ℚ
  profile : String
deriving Repr, DecidableEq

/-- The two dict shapes `get_osrm_route` returns. -/
inductive OsrmResult where
  | ok (r : OsrmSuccess)
  | err (msg : String)
deriving Repr, DecidableEq

/-- `result.get('success')` of an OSRM result. -/
def OsrmResult.success : OsrmResult → Bool
  | .ok _ => true
  | .err _ => false

/-- Embedding of `TravelCalculator.get_osrm_route` (lines 834-883):
`data.get('code') == 'Ok' and data.get('routes')` selects the success
branch, reading the first route; any other parsed body yields the
`'No route found'` failure; a transport failure yields the
`'OSRM request failed: ...'` failure. -/
def getOsrmRoute (profile : String) (http : OsrmHttp) : OsrmResult :=
  match http with
  | .fail e => .err ("OSRM request failed: " ++ e)
  | .ok code routes =>
    match code, routes with
    | some c, r :: _ =>
      if c = "Ok" then
        .ok ⟨r.distance / 1000, r.distance / (160934 / 100),
             r.duration / 60, r.duration / 3600, profile⟩
      else .err "No route found"
    | _, _ => .err "No route found"

/-- The operations of a `TravelCalculator` session that touch or read
the `last_journey` cache, for the cache-lifecycle claims. -/
inductive CalcOp where
  | query (http : TflHttp)
  | selectOption (http : TflHttp) (choice : UserChoice)
  | printInstructions (journeyArg : Option TflResult)
  | visualize (journeyArg : Option TflResult)
  | monthlyCost (fromLoc toLoc : Option String) (daysPerWeek : ℤ)
      (journeyArg : Option TflResult) (http : TflHttp)
deriving Repr, DecidableEq

/-- State transition of one operation.  `print_journey_instructions`
and `visualize_journey` never assign `self.last_journey` and so are
identities on the state. -/
def stepCalc (st : CalcState) : CalcOp → CalcState
  | .query http => (getTflJourneyStep st http).2.1
  | .selectOption http choice => (selectJourneyOption st http choice).2.1
  | .printInstructions _ => st
  | .visualize _ => st
  | .monthlyCost f t d j http => (calcMonthlyCommuteCost st f t d j http).2.1

/-- When `totalCost` is absent or non-positive and the `fares` list is
non-empty, `_extract_fare` falls back to the first fare element:
`total_cost` comes from step 2 (positive `lowZone` first, else positive
`highZone`), and the step-3 unconditional assignments determine the
final `peak_single` / `off_peak_single`. -/
theorem extractFare_fallback (j : RawJourney) (fd : RawFareBlock) (ff : RawFareElem)
    (rest : List RawFareElem)
    (hfd : j.fare = some fd)
    (htc : ∀ t, fd.totalCost = some t → ¬ 0 < t)
    (hff : fd.fares = some (ff :: rest)) :
    extractFare j =
      { total_cost :=
          if keyPos ff.lowZone then some (ff.lowZone.getD 0 / 100)
          else if keyPos ff.highZone then some (ff.highZone.getD 0 / 100)
          else none,
        peak_single := ff.highZone.map (fun v => v / 100),
        off_peak_single := ff.lowZone.map (fun v => v / 100),
        zones := fd.caveatText } := by
  rcases htc' : fd.totalCost with _ | t
  · rcases hh : ff.highZone with _ | hz <;> rcases hl : ff.lowZone with _ | lz <;>
      rcases hc : fd.caveatText with _ | c <;>
      simp [extractFare, hfd, hff, htc', hh, hl, hc, emptyFareInfo, pyFalsyQ, keyPos] <;>
      (try (split_ifs <;> simp))
  · have hneg := htc t htc'
    rcases hh : ff.highZone with _ | hz <;> rcases hl : ff.lowZone with _ | lz <;>
      rcases hc : fd.caveatText with _ | c <;>
      simp [extractFare, hfd, hff, htc', hh, hl, hc, hneg, emptyFareInfo, pyFalsyQ, keyPos] <;>
      (try (split_ifs <;> simp))

/-- When `totalCost` is present and positive, `_extract_fare` stops
after step 1: `total_cost = totalCost / 100` and both singles stay
`None`. -/
theorem extractFare_totalCost (j : RawJourney) (fd : RawFareBlock) (t : ℚ)
    (hfd : j.fare = some fd) (ht : fd.totalCost = some t) (hpos : 0 < t) :
    extractFare j = ⟨some (t / 100), none, none, fd.caveatText⟩ := by
  have hne : t / 100 ≠ 0 := div_ne_zero (ne_of_gt hpos) (by norm_num)
  rcases hc : fd.caveatText with _ | c <;>
    simp [extractFare, hfd, ht, hpos, hc, emptyFareInfo, pyFalsyQ, hne]

/-- C1: for a journey whose fare block lacks a positive `totalCost` and
whose `fares` list is non-empty, step 2 sets `total_cost` (and the
matching single) from a positive `lowZone` of the first fare element,
else from a positive `highZone`; step 3 then unconditionally assigns
`peak_single = highZone/100` whenever `highZone` is present and
`off_peak_single = lowZone/100` whenever `lowZone` is present,
overwriting the step-2 singles while `total_cost` keeps its step-2
value; `totalCost = 0` with `fares = [{lowZone: 180, highZone: 220}]`
yields `total_cost = 1.80`, `off_peak_single = 1.80`,
`peak_single = 2.20`. -/
theorem claim_c1 (j : RawJourney) (fd : RawFareBlock) (ff : RawFareElem)
    (rest : List RawFareElem)
    (hfd : j.fare = some fd)
    (htc : ∀ t, fd.totalCost = some t → ¬ 0 < t)
    (hff : fd.fares = some (ff :: rest)) :
    (extractFare j).peak_single = ff.highZone.map (fun v => v / 100) ∧
    (extractFare j).off_peak_single = ff.lowZone.map (fun v => v / 100) ∧
    (extractFare j).total_cost =
      (if keyPos ff.lowZone then some (ff.lowZone.getD 0 / 100)
       else if keyPos ff.highZone then some (ff.highZone.getD 0 / 100)
       else none) ∧
    extractFare ⟨none, none, none, [], some ⟨some 0, some [⟨some 180, some 220⟩], none⟩⟩ =
      ⟨some (1.80 : ℚ), some (2.20 : ℚ), some (1.80 : ℚ), none⟩ := by
  rw [extractFare_fallback j fd ff rest hfd htc hff]
  refine ⟨rfl, rfl, rfl, ?_⟩
  rw [extractFare_fallback _ ⟨some 0, some [⟨some 180, some 220⟩], none⟩ ⟨some 180, some 220⟩ []
        rfl (by intro t ht; cases ht; exact lt_irrefl 0) rfl]
  norm_num [keyPos]

theorem claim_c1_witness :
    extractFare ⟨none, none, none, [], some ⟨some 0, some [⟨some 180, some 220⟩], none⟩⟩ =
      ⟨some (1.80 : ℚ), some (2.20 : ℚ), some (1.80 : ℚ), none⟩ :=
  (claim_c1 ⟨none, none, none, [], some ⟨some 0, some [⟨some 180, some 220⟩], none⟩⟩
      ⟨some 0, some [⟨some 180, some 220⟩], none⟩ ⟨some 180, some 220⟩ [] rfl
      (by intro t ht; cases ht; exact lt_irrefl 0) rfl).2.2.2

/-- C2: when `fare.totalCost` is present and positive, fare extraction
sets `total_cost = totalCost / 100` and stops: the `fares` breakdown is
not consulted, so `peak_single` and `off_peak_single` remain `None`;
`totalCost = 250` yields `total_cost = 2.50`. -/
theorem claim_c2 (j : RawJourney) (fd : RawFareBlock) (t : ℚ)
    (hfd : j.fare = some fd) (ht : fd.totalCost = some t) (hpos : 0 < t) :
    (extractFare j).total_cost = some (t / 100) ∧
    (extractFare j).peak_single = none ∧
    (extractFare j).off_peak_single = none ∧
    extractFare ⟨none, none, none, [], some ⟨some 250, some [⟨some 180, some 220⟩], none⟩⟩ =
      ⟨some (2.50 : ℚ), none, none, none⟩ := by
  rw [extractFare_totalCost j fd t hfd ht hpos]
  refine ⟨rfl, rfl, rfl, ?_⟩
  rw [extractFare_totalCost _ ⟨some 250, some [⟨some 180, some 220⟩], none⟩ 250 rfl rfl
        (by norm_num)]
  norm_num

theorem claim_c2_witness :
    extractFare ⟨none, none, none, [], some ⟨some 250, some [⟨some 180, some 220⟩], none⟩⟩ =
      ⟨some (2.50 : ℚ), none, none, none⟩ :=
  (claim_c2 ⟨none, none, none, [], some ⟨some 250, some [⟨some 180, some 220⟩], none⟩⟩
      ⟨some 250, some [⟨some 180, some 220⟩], none⟩ 250 rfl rfl (by norm_num)).2.2.2

/-- A journey passes this filter when its key is still unseen (zero-leg
journeys, whose key is `none`, pass vacuously: the loop drops them
before the `seen_routes` check). -/
def keyUnseen (seen : List (String × String)) (j : RawJourney) : Bool :=
  match journeyKey j with
  | none => true
  | some k => decide (k ∉ seen)

theorem keyUnseen_nil (j : RawJourney) : keyUnseen [] j = true := by
  unfold keyUnseen
  cases journeyKey j <;> simp

/-- The seen-set loop is the spec-described dedup of the journeys whose
key is not already in the seen set. -/
theorem dedupAux_eq_specDedup (js : List RawJourney) :
    ∀ seen, dedupAux js seen = specDedup (js.filter (keyUnseen seen)) := by
  induction js with
  | nil => intro seen; simp [dedupAux, specDedup]
  | cons j rest ih =>
    intro seen
    rcases hk : journeyKey j with _ | k
    · simp only [dedupAux, hk]
      rw [List.filter_cons_of_pos (by simp [keyUnseen, hk])]
      rw [specDedup]
      simp only [hk]
      exact ih seen
    · by_cases hmem : k ∈ seen
      · simp only [dedupAux, hk, if_pos hmem]
        rw [List.filter_cons_of_neg (by simp [keyUnseen, hk, hmem])]
        exact ih seen
      · simp only [dedupAux, hk, if_neg hmem]
        rw [List.filter_cons_of_pos (by simp [keyUnseen, hk, hmem])]
        rw [specDedup]
        simp only [hk]
        rw [ih (k :: seen), List.filter_filter]
        have hfeq : List.filter (keyUnseen (k :: seen)) rest =
            List.filter (fun a => decide (journeyKey a ≠ some k) && keyUnseen seen a) rest := by
          apply List.filter_congr
          intro j2 _
          rcases hk2 : journeyKey j2 with _ | k2
          · simp [keyUnseen, hk2]
          · simp [keyUnseen, hk2, List.mem_cons, not_or, Bool.and_comm, and_comm]
        rw [hfeq]

/-- The code's deduplication equals the spec-described one. -/
theorem dedupJourneys_eq_specDedup (js : List RawJourney) :
    dedupJourneys js = specDedup js := by
  rw [dedupJourneys, dedupAux_eq_specDedup js []]
  congr 1
  rw [List.filter_congr (fun j _ => keyUnseen_nil j), List.filter_eq_self]
  intro a _
  rfl

/-- The loop emits a subsequence of its input (relative order kept). -/
theorem dedupAux_sublist (js : List RawJourney) :
    ∀ seen, (dedupAux js seen).Sublist js := by
  induction js with
  | nil => intro seen; simp [dedupAux]
  | cons j rest ih =>
    intro seen
    rcases hk : journeyKey j with _ | k
    · simp only [dedupAux, hk]
      exact (ih seen).trans (List.sublist_cons_self j rest)
    · by_cases hmem : k ∈ seen
      · simp only [dedupAux, hk, if_pos hmem]
        exact (ih seen).trans (List.sublist_cons_self j rest)
      · simp only [dedupAux, hk, if_neg hmem]
        exact (ih (k :: seen)).cons₂ j

/-- Every journey the loop keeps has at least one leg. -/
theorem dedupAux_no_zero_legs (js : List RawJourney) :
    ∀ seen j, j ∈ dedupAux js seen → j.legs ≠ [] := by
  induction js with
  | nil => intro seen j hj; simp [dedupAux] at hj
  | cons j0 rest ih =>
    intro seen j hj
    rcases hk : journeyKey j0 with _ | k
    · simp only [dedupAux, hk] at hj
      exact ih seen j hj
    · by_cases hmem : k ∈ seen
      · simp only [dedupAux, hk, if_pos hmem] at hj
        exact ih seen j hj
      · simp only [dedupAux, hk, if_neg hmem, List.mem_cons] at hj
        rcases hj with rfl | hj
        · intro hnil
          rw [journeyKey, hnil] at hk
          cases hk
        · exact ih (k :: seen) j hj

/-- C3: the Journey Deduplicator drops every journey with zero legs,
keys the rest by the case-insensitive, whitespace-trimmed pair (first
leg's departure display name, last leg's arrival display name), keeps
only the first journey per distinct key, and preserves the original
relative order (the kept list is a sublist of the input); empty input
or an all-filtered input yields the `None` "no options" signal from
`get_all_journey_options`. -/
theorem claim_c3 (js : List RawJourney) (k : String) (hk : k ≠ "") :
    dedupJourneys js = specDedup js ∧
    (dedupJourneys js).Sublist js ∧
    (∀ j ∈ dedupJourneys js, j.legs ≠ []) ∧
    (getAllJourneyOptions (some k) (TflHttp.ok js)).1 =
      (if dedupJourneys js = [] then none else some (dedupJourneys js)) ∧
    getAllJourneyOptions (some k) (TflHttp.ok []) = (none, true) := by
  refine ⟨dedupJourneys_eq_specDedup js, dedupAux_sublist js [],
    fun j hj => dedupAux_no_zero_legs js [] j hj, ?_, ?_⟩
  · cases js with
    | nil => simp [getAllJourneyOptions, pyFalsyOptStr, pyTruthyStr, hk, dedupJourneys, dedupAux]
    | cons j0 rest =>
      simp only [getAllJourneyOptions, pyFalsyOptStr, pyTruthyStr, hk]
      simp [List.isEmpty_iff, hk]
  · simp [getAllJourneyOptions, pyFalsyOptStr, pyTruthyStr, hk]

theorem claim_c3_witness :
    dedupJourneys
        [⟨none, none, none, [⟨some ⟨some "Kings Cross"⟩, some ⟨some "Oxford Circus"⟩⟩], none⟩,
         ⟨none, none, none, [⟨some ⟨some "  kings cross "⟩, some ⟨some "OXFORD CIRCUS"⟩⟩], none⟩] =
      specDedup
        [⟨none, none, none, [⟨some ⟨some "Kings Cross"⟩, some ⟨some "Oxford Circus"⟩⟩], none⟩,
         ⟨none, none, none, [⟨some ⟨some "  kings cross "⟩, some ⟨some "OXFORD CIRCUS"⟩⟩], none⟩] ∧
    dedupJourneys
        [⟨none, none, none, [⟨some ⟨some "Kings Cross"⟩, some ⟨some "Oxford Circus"⟩⟩], none⟩,
         ⟨none, none, none, [⟨some ⟨some "  kings cross "⟩, some ⟨some "OXFORD CIRCUS"⟩⟩], none⟩] =
      [⟨none, none, none, [⟨some ⟨some "Kings Cross"⟩, some ⟨some "Oxford Circus"⟩⟩], none⟩] :=
  ⟨(claim_c3
      [⟨none, none, none, [⟨some ⟨some "Kings Cross"⟩, some ⟨some "Oxford Circus"⟩⟩], none⟩,
       ⟨none, none, none, [⟨some ⟨some "  kings cross "⟩, some ⟨some "OXFORD CIRCUS"⟩⟩], none⟩]
      "x" (by decide)).1,
   by decide⟩

/-- The single fare the Cost Estimator resolves is governed by Python
truthiness: `total_cost` if present and non-zero, else
`off_peak_single` if present and non-zero, else `peak_single` if
present and non-zero, else `0`. -/
theorem costFromJourney_single_fare (j : TflResult) (d : ℤ) :
    (costFromJourney j d).single_fare =
      (if pyTruthyQ j.fareInfo.total_cost then j.fareInfo.total_cost.getD 0
       else if pyTruthyQ j.fareInfo.off_peak_single then j.fareInfo.off_peak_single.getD 0
       else if pyTruthyQ j.fareInfo.peak_single then j.fareInfo.peak_single.getD 0
       else 0) := by
  rcases ht : j.fareInfo.total_cost with _ | v
  · simp [costFromJourney, ht, pyOrZero, pyTruthyQ, pyFalsyQ]
  · by_cases hv : v = 0 <;>
      simp [costFromJourney, ht, pyOrZero, pyTruthyQ, pyFalsyQ, hv]

/-- The fare warning is attached exactly when the resolved single fare
is zero. -/
theorem costFromJourney_warning (j : TflResult) (d : ℤ) :
    (costFromJourney j d).warning =
      (if (costFromJourney j d).single_fare = 0 then some fareWarningMsg else none) := rfl

/-- With an explicit successful journey argument,
`calculate_monthly_commute_cost` returns the estimate built by
`costFromJourney`, touching neither cache nor network. -/
theorem calcCost_with_journey (st : CalcState) (http : TflHttp) (j : TflResult)
    (d : ℤ) (hs : j.success = true) :
    calcMonthlyCommuteCost st none none d (some j) http =
      (.estimate (costFromJourney j d), st, false) := by
  simp [calcMonthlyCommuteCost, resolveJourneyArg, hs]

/-- C4 (amended): for every success-shaped journey handed to the Cost
Estimator, the single fare used in the projection is `fare.total_cost`
if present and non-zero, else `fare.off_peak_single` if present and
non-zero, else `fare.peak_single` if present and non-zero, else `0`;
whenever every present fare field is non-negative this coincides with
the claimed positivity order; in the zero case the caller-visible
fare-unavailable warning is attached while the estimate is still
returned as a success. -/
theorem claim_c4 (st : CalcState) (http : TflHttp) (j : TflResult) (d : ℤ)
    (hs : j.success = true) :
    (calcMonthlyCommuteCost st none none d (some j) http).1.singleFare =
      some (if pyTruthyQ j.fareInfo.total_cost then j.fareInfo.total_cost.getD 0
            else if pyTruthyQ j.fareInfo.off_peak_single then j.fareInfo.off_peak_single.getD 0
            else if pyTruthyQ j.fareInfo.peak_single then j.fareInfo.peak_single.getD 0
            else 0) ∧
    (calcMonthlyCommuteCost st none none d (some j) http).1.success = true ∧
    (calcMonthlyCommuteCost st none none d (some j) http).1.warningMsg =
      (if (calcMonthlyCommuteCost st none none d (some j) http).1.singleFare = some 0
       then some fareWarningMsg else none) ∧
    ((∀ v, j.fareInfo.total_cost = some v → 0 ≤ v) →
     (∀ v, j.fareInfo.off_peak_single = some v → 0 ≤ v) →
     (∀ v, j.fareInfo.peak_single = some v → 0 ≤ v) →
      (calcMonthlyCommuteCost st none none d (some j) http).1.singleFare =
        some (if keyPos j.fareInfo.total_cost then j.fareInfo.total_cost.getD 0
              else if keyPos j.fareInfo.off_peak_single then j.fareInfo.off_peak_single.getD 0
              else if keyPos j.fareInfo.peak_single then j.fareInfo.peak_single.getD 0
              else 0)) := by
  rw [calcCost_with_journey st http j d hs]
  have hsf := costFromJourney_single_fare j d
  have hw := costFromJourney_warning j d
  refine ⟨?_, rfl, ?_, ?_⟩
  · simp [CostResult.singleFare, hsf]
  · simp only [CostResult.warningMsg, CostResult.singleFare, hw, Option.some.injEq]
  · intro h1 h2 h3
    simp only [CostResult.singleFare, hsf, Option.some.injEq]
    have e1 : pyTruthyQ j.fareInfo.total_cost = keyPos j.fareInfo.total_cost := by
      rcases hx : j.fareInfo.total_cost with _ | v
      · rfl
      · have hle := h1 v hx
        by_cases hv : v = 0
        · simp [pyTruthyQ, pyFalsyQ, keyPos, hv]
        · have hpos : 0 < v := lt_of_le_of_ne hle (Ne.symm hv)
          simp [pyTruthyQ, pyFalsyQ, keyPos, hv, hpos]
    have e2 : pyTruthyQ j.fareInfo.off_peak_single = keyPos j.fareInfo.off_peak_single := by
      rcases hx : j.fareInfo.off_peak_single with _ | v
      · rfl
      · have hle := h2 v hx
        by_cases hv : v = 0
        · simp [pyTruthyQ, pyFalsyQ, keyPos, hv]
        · have hpos : 0 < v := lt_of_le_of_ne hle (Ne.symm hv)
          simp [pyTruthyQ, pyFalsyQ, keyPos, hv, hpos]
    have e3 : pyTruthyQ j.fareInfo.peak_single = keyPos j.fareInfo.peak_single := by
      rcases hx : j.fareInfo.peak_single with _ | v
      · rfl
      · have hle := h3 v hx
        by_cases hv : v = 0
        · simp [pyTruthyQ, pyFalsyQ, keyPos, hv]
        · have hpos : 0 < v := lt_of_le_of_ne hle (Ne.symm hv)
          simp [pyTruthyQ, pyFalsyQ, keyPos, hv, hpos]
    rw [e1, e2, e3]

/-- A raw journey whose fare block carries a negative `lowZone`: step 3
of the fare extractor turns it into `off_peak_single = -1` with no
`total_cost`. -/
def negFareJourney : RawJourney :=
  ⟨none, none, none, [], some ⟨none, some [⟨some (-100), none⟩], none⟩⟩

/-- C4 counterexample: on the normalized journey produced from
`negFareJourney` (fare fields `total_cost = None`,
`off_peak_single = -1`, `peak_single = None`), the Cost Estimator uses
the single fare `-1` — not `0` as the claim's positivity order demands
— and attaches no fare warning. -/
theorem claim_c4_counterexample :
    (extractFare negFareJourney).total_cost = none ∧
    (extractFare negFareJourney).off_peak_single = some (-1) ∧
    (extractFare negFareJourney).peak_single = none ∧
    (calcMonthlyCommuteCost ⟨some "k", none⟩ none none 5
        (some (normalizeJourney negFareJourney)) (TflHttp.ok [])).1.singleFare = some (-1) ∧
    (calcMonthlyCommuteCost ⟨some "k", none⟩ none none 5
        (some (normalizeJourney negFareJourney)) (TflHttp.ok [])).1.warningMsg = none ∧
    (calcMonthlyCommuteCost ⟨some "k", none⟩ none none 5
        (some (normalizeJourney negFareJourney)) (TflHttp.ok [])).1.singleFare ≠ some 0 := by
  have hf : extractFare negFareJourney = ⟨none, none, some (-1), none⟩ := by
    rw [extractFare_fallback negFareJourney ⟨none, some [⟨some (-100), none⟩], none⟩
          ⟨some (-100), none⟩ [] rfl (by intro t ht; cases ht) rfl]
    norm_num [keyPos]
  have hc : calcMonthlyCommuteCost ⟨some "k", none⟩ none none 5
      (some (normalizeJourney negFareJourney)) (TflHttp.ok []) =
      (.estimate (costFromJourney (normalizeJourney negFareJourney) 5), ⟨some "k", none⟩, false) :=
    calcCost_with_journey _ _ _ _ rfl
  have hsf : (costFromJourney (normalizeJourney negFareJourney) 5).single_fare = -1 := by
    rw [costFromJourney_single_fare]
    simp [normalizeJourney, TflResult.fareInfo, hf, pyTruthyQ, pyFalsyQ]
  refine ⟨by rw [hf], by rw [hf], by rw [hf], ?_, ?_, ?_⟩
  · rw [hc]
    simp [CostResult.singleFare, hsf]
  · rw [hc]
    simp only [CostResult.warningMsg, costFromJourney_warning, hsf]
    norm_num
  · rw [hc]
    simp [CostResult.singleFare, hsf]

theorem claim_c4_witness :
    (calcMonthlyCommuteCost ⟨some "k", none⟩ none none 5
        (some (TflResult.ok 10 none none 1 ⟨some 2.80, none, none, none⟩
          ⟨none, none, none, [], none⟩)) (TflHttp.ok [])).1.singleFare = some (2.80 : ℚ) := by
  have h := (claim_c4 ⟨some "k", none⟩ (TflHttp.ok [])
      (TflResult.ok 10 none none 1 ⟨some 2.80, none, none, none⟩
        ⟨none, none, none, [], none⟩) 5 rfl).1
  rw [h]
  norm_num [TflResult.fareInfo, pyTruthyQ, pyFalsyQ]

/-- C5: for every resolved single fare `s` and positive `days_per_week`
`d`, the Cost Estimator returns `daily = s * 2`, `weekly = daily * d`,
`monthly = weekly * 4.33`, `annual = monthly * 12`, and
`monthly_capped = min(monthly, s * 2.5 * 20)`; with `s = 2.80` and
`d = 5` this gives `daily = 5.60`, `weekly = 28.00`,
`monthly = 121.24`, `monthly_capped = min(121.24, 140.00) = 121.24`. -/
theorem claim_c5 (st : CalcState) (http : TflHttp) (j : TflResult) (d : ℤ)
    (_hd : 0 < d) (hs : j.success = true) :
    (calcMonthlyCommuteCost st none none d (some j) http).1 =
      .estimate (costFromJourney j d) ∧
    (costFromJourney j d).daily_cost = (costFromJourney j d).single_fare * 2 ∧
    (costFromJourney j d).weekly_cost = (costFromJourney j d).daily_cost * (d : ℚ) ∧
    (costFromJourney j d).monthly_cost = (costFromJourney j d).weekly_cost * (433 / 100) ∧
    (costFromJourney j d).annual_cost = (costFromJourney j d).monthly_cost * 12 ∧
    (costFromJourney j d).monthly_cost_with_cap =
      min (costFromJourney j d).monthly_cost ((costFromJourney j d).single_fare * (5 / 2) * 20) ∧
    ((costFromJourney (.ok 10 none none 1 ⟨some 2.80, none, none, none⟩
        ⟨none, none, none, [], none⟩) 5).single_fare = (2.80 : ℚ) ∧
     (costFromJourney (.ok 10 none none 1 ⟨some 2.80, none, none, none⟩
        ⟨none, none, none, [], none⟩) 5).daily_cost = (5.60 : ℚ) ∧
     (costFromJourney (.ok 10 none none 1 ⟨some 2.80, none, none, none⟩
        ⟨none, none, none, [], none⟩) 5).weekly_cost = (28 : ℚ) ∧
     (costFromJourney (.ok 10 none none 1 ⟨some 2.80, none, none, none⟩
        ⟨none, none, none, [], none⟩) 5).monthly_cost = (121.24 : ℚ) ∧
     (costFromJourney (.ok 10 none none 1 ⟨some 2.80, none, none, none⟩
        ⟨none, none, none, [], none⟩) 5).monthly_cost_with_cap = (121.24 : ℚ)) := by
  refine ⟨congrArg Prod.fst (calcCost_with_journey st http j d hs), rfl, rfl, rfl, rfl, rfl,
    ?_, ?_, ?_, ?_, ?_⟩ <;>
    norm_num [costFromJourney, TflResult.fareInfo, pyOrZero, pyTruthyQ, pyFalsyQ,
      TflResult.durationMinutes, min_def]

theorem claim_c5_witness :
    (calcMonthlyCommuteCost ⟨some "k", none⟩ none none 5
        (some (TflResult.ok 10 none none 1 ⟨some 2.80, none, none, none⟩
          ⟨none, none, none, [], none⟩)) (TflHttp.ok [])).1 =
      .estimate (costFromJourney (TflResult.ok 10 none none 1 ⟨some 2.80, none, none, none⟩
          ⟨none, none, none, [], none⟩) 5) ∧
    (costFromJourney (TflResult.ok 10 none none 1 ⟨some 2.80, none, none, none⟩
        ⟨none, none, none, [], none⟩) 5).monthly_cost = (121.24 : ℚ) :=
  ⟨(claim_c5 ⟨some "k", none⟩ (TflHttp.ok [])
      (TflResult.ok 10 none none 1 ⟨some 2.80, none, none, none⟩
        ⟨none, none, none, [], none⟩) 5 (by norm_num) rfl).1,
   (claim_c5 ⟨some "k", none⟩ (TflHttp.ok [])
      (TflResult.ok 10 none none 1 ⟨some 2.80, none, none, none⟩
        ⟨none, none, none, [], none⟩) 5 (by norm_num) rfl).2.2.2.2.2.2.2.2.2.1⟩

/-- C6: on transport failure the transit query (`get_tfl_journey`)
returns a tagged failure carrying the underlying cause, and on a
successful response with zero journeys it returns the tagged
`'No journey found'` result, distinguishable (as a value and by its
error text) from every transport-error result; the embedded function is
total, modelling that no exception escapes the boundary. -/
theorem claim_c6 (k : String) (hk : k ≠ "") (e : String) :
    getTflJourney (some k) (.fail e) = (.reqFailed e, true) ∧
    (TflResult.reqFailed e).success = false ∧
    (TflResult.reqFailed e).errorMsg = some ("API request failed: " ++ e) ∧
    getTflJourney (some k) (.ok []) = (.noJourney [], true) ∧
    (TflResult.noJourney []).success = false ∧
    (TflResult.noJourney []).errorMsg = some "No journey found" ∧
    (∀ e' js, TflResult.noJourney js ≠ .reqFailed e') ∧
    (∀ e', TflResult.errorMsg (.noJourney []) ≠ TflResult.errorMsg (.reqFailed e')) := by
  refine ⟨?_, rfl, rfl, ?_, rfl, rfl, ?_, ?_⟩
  · simp [getTflJourney, pyFalsyOptStr, pyTruthyStr, hk]
  · simp [getTflJourney, pyFalsyOptStr, pyTruthyStr, hk]
  · intro e' js h
    cases h
  · intro e' h
    simp only [TflResult.errorMsg, Option.some.injEq] at h
    have hlen := congrArg String.length h
    rw [String.length_append] at hlen
    have h1 : ("No journey found").length = 16 := rfl
    have h2 : ("API request failed: ").length = 20 := rfl
    omega

theorem claim_c6_witness :
    getTflJourney (some "k") (.fail "timeout") = (.reqFailed "timeout", true) ∧
    getTflJourney (some "k") (.ok []) = (.noJourney [], true) :=
  ⟨(claim_c6 "k" (by decide) "timeout").1, (claim_c6 "k" (by decide) "timeout").2.2.2.1⟩

/-- C7 (amended): with the API key absent (or empty, which Python
treats as falsy), every transit-requiring operation returns its failure
value without issuing a network request — the returned `Bool` network
flag is `false` and the result does not depend on the HTTP outcome —
and `get_tfl_journey`'s failure names the missing credential, while
`get_all_journey_options` and `select_journey_option` signal the
failure only by their bare `None` value. -/
theorem claim_c7 (key : Option String) (hk : pyFalsyOptStr key = true)
    (http http' : TflHttp) (choice : UserChoice) (st : CalcState)
    (hst : st.tfl_app_key = key) :
    getTflJourney key http = (.noKey, false) ∧
    TflResult.noKey.success = false ∧
    TflResult.noKey.errorMsg = some "TfL API key not found. Set TFL_APP_KEY in .env file" ∧
    getAllJourneyOptions key http = (none, false) ∧
    getTflJourney key http = getTflJourney key http' ∧
    getTflJourneyStep st http = (.noKey, st, false) ∧
    selectJourneyOption st http choice = (none, st, false) := by
  refine ⟨?_, rfl, rfl, ?_, ?_, ?_, ?_⟩ <;>
    simp [getTflJourney, getAllJourneyOptions, getTflJourneyStep, selectJourneyOption, hk, hst]

theorem claim_c7_witness :
    getTflJourney none (.fail "timeout") = (.noKey, false) ∧
    getAllJourneyOptions none (.fail "timeout") = (none, false) :=
  ⟨(claim_c7 none rfl (.fail "timeout") (.ok []) .quit ⟨none, none⟩ rfl).1,
   (claim_c7 none rfl (.fail "timeout") (.ok []) .quit ⟨none, none⟩ rfl).2.2.2.1⟩

/-- C9: `get_osrm_route` treats `code == "Ok"` with a non-empty routes
list as success, returning `distance_km = meters / 1000`,
`distance_miles = meters / 1609.34`, `duration_minutes = seconds / 60`
and `duration_hours = seconds / 3600` from the first route; any other
parsed body, or a transport failure, yields a tagged failure with a
human-readable cause. -/
theorem claim_c9 (profile : String) (r : OsrmRoute) (rest : List OsrmRoute)
    (e : String) (code : Option String) (routes : List OsrmRoute)
    (hbad : code ≠ some "Ok" ∨ routes = []) :
    getOsrmRoute profile (.ok (some "Ok") (r :: rest)) =
      .ok ⟨r.distance / 1000, r.distance / (1609.34 : ℚ),
           r.duration / 60, r.duration / 3600, profile⟩ ∧
    getOsrmRoute profile (.ok code routes) = .err "No route found" ∧
    getOsrmRoute profile (.fail e) = .err ("OSRM request failed: " ++ e) ∧
    (getOsrmRoute profile (.ok code routes)).success = false ∧
    (getOsrmRoute profile (.fail e)).success = false := by
  refine ⟨?_, ?_, rfl, ?_, rfl⟩
  · have : (1609.34 : ℚ) = 160934 / 100 := by norm_num
    simp [getOsrmRoute, this]
  · rcases code with _ | c
    · cases routes <;> simp [getOsrmRoute]
    · rcases routes with _ | ⟨r0, rs⟩
      · simp [getOsrmRoute]
      · rcases hbad with hc | hnil
        · have hcne : c ≠ "Ok" := fun hcc => hc (by rw [hcc])
          simp [getOsrmRoute, hcne]
        · cases hnil
  · rcases code with _ | c
    · cases routes <;> simp [getOsrmRoute, OsrmResult.success]
    · rcases routes with _ | ⟨r0, rs⟩
      · simp [getOsrmRoute, OsrmResult.success]
      · rcases hbad with hc | hnil
        · have hcne : c ≠ "Ok" := fun hcc => hc (by rw [hcc])
          simp [getOsrmRoute, hcne, OsrmResult.success]
        · cases hnil

theorem claim_c9_witness :
    getOsrmRoute "driving" (.ok (some "Ok") [⟨5000, 600⟩]) =
      .ok ⟨5000 / 1000, 5000 / (1609.34 : ℚ), 600 / 60, 600 / 3600, "driving"⟩ ∧
    getOsrmRoute "driving" (.ok (some "NoRoute") []) = .err "No route found" :=
  ⟨(claim_c9 "driving" ⟨5000, 600⟩ [] "x" (some "NoRoute") [] (Or.inr rfl)).1,
   (claim_c9 "driving" ⟨5000, 600⟩ [] "x" (some "NoRoute") [] (Or.inr rfl)).2.1⟩

/-- C10: when `calculate_monthly_commute_cost` is handed (or resolves
from the cache) a journey whose success flag is false, it returns that
journey dict itself unchanged — the failure propagates verbatim, the
cache and network are untouched, and no cost fields, cap, or fare
warning are added. -/
theorem claim_c10 (st st' : CalcState) (d : ℤ) (j : TflResult)
    (hj : j.success = false) (http : TflHttp)
    (hc : st'.last_journey = some j) :
    calcMonthlyCommuteCost st none none d (some j) http = (.passthrough j, st, false) ∧
    calcMonthlyCommuteCost st' none none d none http = (.passthrough j, st', false) ∧
    (CostResult.passthrough j).warningMsg = none ∧
    (CostResult.passthrough j).singleFare = none ∧
    (CostResult.passthrough j).success = j.success := by
  refine ⟨?_, ?_, rfl, rfl, rfl⟩
  · simp [calcMonthlyCommuteCost, resolveJourneyArg, hj]
  · simp [calcMonthlyCommuteCost, resolveJourneyArg, hj, hc, pyTruthyOptStr, pyFalsyOptStr]

theorem claim_c10_witness :
    calcMonthlyCommuteCost ⟨some "k", none⟩ none none 5
        (some (.reqFailed "timeout")) (TflHttp.ok []) =
      (.passthrough (.reqFailed "timeout"), ⟨some "k", none⟩, false) ∧
    calcMonthlyCommuteCost ⟨some "k", some (.reqFailed "timeout")⟩ none none 5
        none (TflHttp.ok []) =
      (.passthrough (.reqFailed "timeout"), ⟨some "k", some (.reqFailed "timeout")⟩, false) :=
  ⟨(claim_c10 ⟨some "k", none⟩ ⟨some "k", some (.reqFailed "timeout")⟩ 5
      (.reqFailed "timeout") rfl (TflHttp.ok []) rfl).1,
   (claim_c10 ⟨some "k", none⟩ ⟨some "k", some (.reqFailed "timeout")⟩ 5
      (.reqFailed "timeout") rfl (TflHttp.ok []) rfl).2.1⟩

/-- Each `get_tfl_journey` call either leaves the state unchanged
(missing key) or overwrites the cache with the new result. -/
theorem getTflJourneyStep_state (st : CalcState) (http : TflHttp) :
    (getTflJourneyStep st http).2.1 = st ∨
    ∃ r, (getTflJourneyStep st http).2.1 = { st with last_journey := some r } := by
  by_cases h : pyFalsyOptStr st.tfl_app_key = true
  · left
    simp [getTflJourneyStep, h]
  · right
    refine ⟨(getTflJourney st.tfl_app_key http).1, ?_⟩
    simp [getTflJourneyStep, h]

/-- Each `select_journey_option` call either leaves the state
unchanged or overwrites the cache with the selected result. -/
theorem selectJourneyOption_state (st : CalcState) (http : TflHttp) (choice : UserChoice) :
    (selectJourneyOption st http choice).2.1 = st ∨
    ∃ r, (selectJourneyOption st http choice).2.1 = { st with last_journey := some r } := by
  unfold selectJourneyOption
  rcases hopt : (getAllJourneyOptions st.tfl_app_key http).1 with _ | js
  · left
    simp [hopt]
  · cases choice with
    | quit => left; simp [hopt]
    | pick n =>
      by_cases hn : 1 ≤ n ∧ n ≤ js.length
      · right
        refine ⟨normalizeJourney (js.get ⟨n - 1, by omega⟩), ?_⟩
        simp [hopt, hn]
      · left
        simp [hopt, hn]

/-- The journey-source resolution either keeps the state or (when it
fetches) overwrites the cache. -/
theorem resolveJourneyArg_state (st : CalcState) (f t : Option String)
    (jArg : Option TflResult) (http : TflHttp) :
    (resolveJourneyArg st f t jArg http).2.1 = st ∨
    ∃ r, (resolveJourneyArg st f t jArg http).2.1 = { st with last_journey := some r } := by
  rcases jArg with _ | j
  · unfold resolveJourneyArg
    by_cases hft : (pyTruthyOptStr f && pyTruthyOptStr t) = true
    · rcases hg : getTflJourneyStep st http with ⟨r, st2, att⟩
      have hst := getTflJourneyStep_state st http
      rw [hg] at hst
      simp only [hft, if_true]
      simpa [hg] using hst
    · cases hl : st.last_journey <;> simp [hft, hl]
  · left
    simp [resolveJourneyArg]

/-- `calculate_monthly_commute_cost` changes the state exactly as its
journey-source resolution does. -/
theorem calcCost_state (st : CalcState) (f t : Option String) (d : ℤ)
    (jArg : Option TflResult) (http : TflHttp) :
    (calcMonthlyCommuteCost st f t d jArg http).2.1 = (resolveJourneyArg st f t jArg http).2.1 := by
  unfold calcMonthlyCommuteCost
  rcases hr : resolveJourneyArg st f t jArg http with ⟨jres, st2, att⟩
  rcases jres with _ | j
  · simp [hr]
  · by_cases hs : j.success = true <;> simp [hr, hs]

/-- C8: the last-journey cache is empty at startup, is overwritten on
each transit query with a present key (in particular each successful
one) and on each accepted user selection, is never cleared by any
modelled operation (overwrite-only), and is the journey consulted by
the printing, visualization and cost operations when their journey
argument is omitted. -/
theorem claim_c8 :
    (∀ key envKey, (initCalc key envKey).last_journey = none) ∧
    (∀ st op, st.last_journey ≠ none → (stepCalc st op).last_journey ≠ none) ∧
    (∀ st http, pyFalsyOptStr st.tfl_app_key = false →
      (stepCalc st (.query http)).last_journey = some (getTflJourney st.tfl_app_key http).1) ∧
    (∀ st http choice r, (selectJourneyOption st http choice).1 = some r →
      (stepCalc st (.selectOption http choice)).last_journey = some r) ∧
    (∀ st, printJourneyResolve st none = st.last_journey) ∧
    (∀ st, visualizeResolve st none = st.last_journey) ∧
    (∀ st http, (resolveJourneyArg st none none none http).1 = st.last_journey) := by
  refine ⟨fun key envKey => rfl, ?_, ?_, ?_, fun st => rfl, fun st => rfl, ?_⟩
  · intro st op h
    cases op with
    | query http =>
      simp only [stepCalc]
      rcases getTflJourneyStep_state st http with h1 | ⟨r, h1⟩
      · rw [h1]; exact h
      · rw [h1]; simp
    | selectOption http choice =>
      simp only [stepCalc]
      rcases selectJourneyOption_state st http choice with h1 | ⟨r, h1⟩
      · rw [h1]; exact h
      · rw [h1]; simp
    | printInstructions jArg => exact h
    | visualize jArg => exact h
    | monthlyCost f t d jArg http =>
      simp only [stepCalc]
      rw [calcCost_state]
      rcases resolveJourneyArg_state st f t jArg http with h1 | ⟨r, h1⟩
      · rw [h1]; exact h
      · rw [h1]; simp
  · intro st http hkey
    simp [stepCalc, getTflJourneyStep, hkey]
  · intro st http choice r h
    simp only [stepCalc]
    unfold selectJourneyOption at h ⊢
    rcases hopt : (getAllJourneyOptions st.tfl_app_key http).1 with _ | js
    · simp [hopt] at h
    · cases choice with
      | quit => simp [hopt] at h
      | pick n =>
        by_cases hn : 1 ≤ n ∧ n ≤ js.length
        · simp [hopt, hn] at h ⊢
          exact h
        · simp [hopt, hn] at h
  · intro st http
    cases hl : st.last_journey <;>
      simp [resolveJourneyArg, pyTruthyOptStr, pyFalsyOptStr, hl]

theorem claim_c8_witness :
    (initCalc (some "k") none).last_journey = none ∧
    (stepCalc ⟨some "k", none⟩ (.query (.fail "boom"))).last_journey =
      some (.reqFailed "boom") := by
  constructor
  · exact claim_c8.1 (some "k") none
  · have h := claim_c8.2.2.1 ⟨some "k", none⟩ (.fail "boom") (by decide)
    rw [h]
    simp [getTflJourney, pyFalsyOptStr, pyTruthyStr]

/-- C7 counterexample: the credentials-missing failure of
`get_all_journey_options` is not a distinguishable ("clear")
credentials signal.  On the same one-journey response body the call
succeeds with a key, yet with the key absent it returns the very same
bare `None` it returns for a transport failure or an empty result when
a key is present; `select_journey_option` inherits the same bare `None`
for an otherwise valid selection. -/
theorem claim_c7_counterexample :
    (getAllJourneyOptions (some "k")
        (TflHttp.ok [⟨none, none, none, [⟨some ⟨some "A"⟩, some ⟨some "B"⟩⟩], none⟩])).1 =
      some [⟨none, none, none, [⟨some ⟨some "A"⟩, some ⟨some "B"⟩⟩], none⟩] ∧
    (getAllJourneyOptions none
        (TflHttp.ok [⟨none, none, none, [⟨some ⟨some "A"⟩, some ⟨some "B"⟩⟩], none⟩])).1 = none ∧
    (getAllJourneyOptions (some "k") (TflHttp.fail "timeout")).1 = none ∧
    (getAllJourneyOptions (some "k") (TflHttp.ok [])).1 = none ∧
    (getAllJourneyOptions none
        (TflHttp.ok [⟨none, none, none, [⟨some ⟨some "A"⟩, some ⟨some "B"⟩⟩], none⟩])).1 =
      (getAllJourneyOptions (some "k") (TflHttp.fail "timeout")).1 ∧
    (selectJourneyOption ⟨none, none⟩
        (TflHttp.ok [⟨none, none, none, [⟨some ⟨some "A"⟩, some ⟨some "B"⟩⟩], none⟩])
        (.pick 1)).1 =
      (selectJourneyOption ⟨some "k", none⟩ (TflHttp.fail "timeout") (.pick 1)).1 := by
  refine ⟨?_, by decide, by decide, by decide, by decide, by decide⟩
  decide
